import Mathlib

/-!
# Verification of the NRAU-Baltic log cross-checker

A shallow embedding of the scoring core of `check.py` (with notes on the
near-identical `gui.py` variant where the two differ), together with theorems
settling the frozen claims about the specification.

Modelling conventions:
* Python `datetime` values are epoch seconds (`Int`); only differences and
  comparisons with the contest-start constants matter to the code.
* Python exceptions that the source can raise during scoring (`ValueError`
  from `int(...)`, `KeyError` from dictionary lookups) are modelled with
  `Except String`: an `.error` result is an uncaught exception propagating
  out of the scoring code.
* The external collaborators (the `pyhamtools` callsign-to-country resolver
  `cic.get_country_name` and the `counties.json` table) are parameters:
  `getCountry : String → Option String` (`none` = lookup raises) and
  `counties : String → Option (List String)` (`none` = country key absent,
  so that Python's `counties[country]` raises `KeyError`).
* List indexing `xs[i]` after the source has established the index is in
  range is modelled with `List.getD i ""`; the out-of-range Python
  `IndexError` paths are not exercised by any claim.
* The UBN log-file writing, the global mistake counter and the
  `qso.valid` flag of `loop_all` are reporting side effects no claim
  concerns; they are omitted from the embedding.
-/

/-- A logged contact, as parsed by the external cabrillo parser and consumed
by `check.py`: mode (`mo`), frequency string (`freq`), timestamp (`date`,
epoch seconds), own call (`de_call`), counterpart call (`dx_call`), sent
exchange (`de_exch`) and received exchange (`dx_exch`). -/
structure QSO where
  mo : String
  freq : String
  date : Int
  de_call : String
  dx_call : String
  de_exch : List String
  dx_exch : List String
deriving Repr, DecidableEq

/-- A Contest: the mapping from callsign to that participant's submitted QSO
list (`contest` dict of `check.py`), as an association list. -/
def Contest := List (String × List QSO)

/-- Python `contest[call]` as an optional lookup (`KeyError` = `none`). -/
def lookupLog (contest : Contest) (call : String) : Option (List QSO) :=
  (List.find? (fun p => p.1 == call) contest).map Prod.snd

/-- Python `call in contest`. -/
def containsCall (contest : Contest) (call : String) : Bool :=
  (lookupLog contest call).isSome

/-- Length of `contest[call]`, `0` when the call is absent; bounds the
duplicate-resolution recursion of `match_nrau`. -/
def logLenOf (contest : Contest) (call : String) : Nat :=
  match lookupLog contest call with
  | none => 0
  | some l => l.length

/-- `q.freq[0]`: the leading character of the frequency string, `'3'` for
80 m and `'7'` for 40 m (defined for the nonempty frequency strings the
checker's data contains; Python raises `IndexError` on an empty one). -/
def qso_band (q : QSO) : Char :=
  q.freq.toList.headD ' '

/-- Python `int(s)` on the nonnegative decimal digit strings appearing in
the logs: `some` exactly on nonempty all-digit strings (on anything else
`int` raises `ValueError`, modelled as `none`). -/
def strDigits? (s : String) : Option Nat :=
  if s.length ≠ 0 ∧ s.toList.all Char.isDigit then
    some (s.toList.foldl (fun a c => a * 10 + (c.toNat - 48)) 0)
  else
    none

/-- `MAX_MINUTE_DELTA` of `check.py`. -/
def MAX_MINUTE_DELTA : Nat := 5

/-- `PH_CONTEST_START` = 2022-01-09 06:30:00, as epoch seconds. -/
def PH_CONTEST_START : Int := 1641709800

/-- `CW_CONTEST_START` = 2022-01-09 09:00:00, as epoch seconds. -/
def CW_CONTEST_START : Int := 1641718800

/-- `match_time` of `check.py`: the two timestamps differ by at most
`MAX_MINUTE_DELTA` minutes. -/
def match_time (date1 date2 : Int) : Bool :=
  decide ((date1 - date2).natAbs ≤ MAX_MINUTE_DELTA * 60)

/-- `match_time_window` of `check.py`: the timestamp lies in the PH window
or in the CW window (each 2 hours long).  Note the check does not depend on
the contact's mode. -/
def match_time_window (date : Int) : Bool :=
  decide ((PH_CONTEST_START ≤ date ∧ date < PH_CONTEST_START + 7200) ∨
    (CW_CONTEST_START ≤ date ∧ date < CW_CONTEST_START + 7200))

/-- The CW frequency legality condition of `match_nrau`. -/
def cw_freq_ok (f : Nat) : Bool :=
  decide ((3510 ≤ f ∧ f ≤ 3560) ∨ f = 3500 ∨ (7010 ≤ f ∧ f ≤ 7060) ∨ f = 7000)

/-- The PH frequency legality condition of `match_nrau`. -/
def ph_freq_ok (f : Nat) : Bool :=
  decide ((3600 ≤ f ∧ f ≤ 3650) ∨ (3700 ≤ f ∧ f ≤ 3775) ∨ f = 3500 ∨
    (7050 ≤ f ∧ f ≤ 7100) ∨ (7130 ≤ f ∧ f ≤ 7200) ∨ f = 7000)

/-- The matching condition of `find_qso`'s loop:
`q.dx_call == dx and q.freq[0] == band`. -/
def qso_matches (dx : String) (band : Char) (q : QSO) : Bool :=
  q.dx_call == dx && qso_band q == band

/-- The scanning loop of `find_qso`: walk the log in submission order,
counting matches in `found`, and return the contact at which `found`
reaches `occurence`. -/
def find_qso_aux (log : List QSO) (dx : String) (band : Char)
    (occurence found : Nat) : Option QSO :=
  match log with
  | [] => none
  | q :: rest =>
    if qso_matches dx band q then
      if found + 1 = occurence then some q
      else find_qso_aux rest dx band occurence (found + 1)
    else find_qso_aux rest dx band occurence found

/-- `find_qso` of `check.py`: the `occurence`-th contact with `dx` on `band`
in `contest[call]`; `none` both when `call` is absent (the caught
`KeyError`, Python returns `False`) and when fewer than `occurence` matches
exist (Python falls off the loop and returns `None`). -/
def find_qso (contest : Contest) (call dx : String) (band : Char)
    (occurence : Nat) : Option QSO :=
  match lookupLog contest call with
  | none => none
  | some log => find_qso_aux log dx band occurence 0

/-- The number of contacts in a log matching counterpart `dx` and `band`. -/
def countMatching (log : List QSO) (dx : String) (band : Char) : Nat :=
  (log.filter (qso_matches dx band)).length

/-- `match_exch` of `check.py`: grade the exchange of `my_qso` against the
located `other_qso`.  The serial numbers are compared through `int(...)`,
which raises `ValueError` on a non-numeric string (the `.error` case);
`gui.py`'s `validate_exchange` instead catches that and grades 1. -/
def match_exch (my_qso other_qso : QSO) : Except String Nat :=
  if my_qso.de_exch.length ≠ 3 then .ok 0
  else if my_qso.dx_exch.length ≠ 3 then .ok 0
  else if my_qso.dx_exch.getD 0 "" ≠ other_qso.de_exch.getD 0 "" then .ok 1
  else
    match strDigits? (my_qso.dx_exch.getD 1 ""),
        strDigits? (other_qso.de_exch.getD 1 "") with
    | some a, some b =>
      if a ≠ b then .ok 1
      else if my_qso.dx_exch.getD 2 "" ≠ other_qso.de_exch.getD 2 "" then .ok 1
      else .ok 2
    | _, _ => .error "ValueError"

/-- One unfolding of `match_nrau` of `check.py`, with the recursive
duplicate-resolution call abstracted as `rec`.  Follows the source line by
line: parse `int(my_qso.freq)` first; the shadow-station branch when the
counterpart is absent from the contest (threshold 10, then the
`counties[cic.get_country_name(...)]` membership test, either dictionary
access able to raise `KeyError`); otherwise locate the counterpart contact,
check mode-specific frequency legality, the contest time window, and the
5-minute drift; on drift failure probe occurrence `run + 1` and recurse,
returning the recursive score if positive and otherwise falling through to
`match_exch` on the out-of-tolerance match; `.ok 0` with the time-differs
detail only when no further occurrence exists. -/
def match_nrau_body (rec : Nat → Except String Nat) (contest : Contest)
    (shadow : String → String → Nat) (getCountry : String → Option String)
    (counties : String → Option (List String)) (my_qso : QSO)
    (other_callsign : String) (run : Nat) : Except String Nat :=
  match strDigits? my_qso.freq with
  | none => .error "ValueError"
  | some my_freq =>
    if containsCall contest other_callsign = false then
      if 10 ≤ shadow other_callsign my_qso.mo then
        match getCountry my_qso.dx_call with
        | none => .error "KeyError"
        | some country =>
          match counties country with
          | none => .error "KeyError"
          | some areas =>
            if my_qso.dx_exch.getD 2 "" ∉ areas then .ok 0
            else .ok 1
      else .ok 0
    else
      match find_qso contest other_callsign my_qso.de_call (qso_band my_qso) run with
      | none => .ok 0
      | some other_qso =>
        if my_qso.mo == "CW" && !cw_freq_ok my_freq then .ok 0
        else if my_qso.mo == "PH" && !ph_freq_ok my_freq then .ok 0
        else if !match_time_window my_qso.date then .ok 0
        else if !match_time my_qso.date other_qso.date then
          match find_qso contest other_callsign my_qso.de_call (qso_band my_qso) (run + 1) with
          | some _ =>
            match rec (run + 1) with
            | .error e => .error e
            | .ok next_score =>
              if 0 < next_score then .ok next_score
              else match_exch my_qso other_qso
          | none => .ok 0
        else match_exch my_qso other_qso

/-- `match_nrau` with explicit recursion fuel; fuel `0` stands for Python's
recursion limit, never reached with fuel above the counterpart log's
length (`match_nrau_fuel_stable`). -/
def match_nrau_fuel : Nat → Contest → (String → String → Nat) →
    (String → Option String) → (String → Option (List String)) →
    QSO → String → Nat → Except String Nat
  | 0, _, _, _, _, _, _, _ => .error "RecursionError"
  | fuel + 1, contest, shadow, getCountry, counties, my_qso, other_callsign, run =>
    match_nrau_body
      (fun r => match_nrau_fuel fuel contest shadow getCountry counties my_qso other_callsign r)
      contest shadow getCountry counties my_qso other_callsign run

/-- `match_nrau` of `check.py`: the cross-check orchestrator.  Its
duplicate-resolution recursion strictly increases `run` and only fires when
a contact at occurrence `run + 1` exists, so its depth is bounded by the
counterpart log's length; the fuel `logLenOf contest other_callsign + 1` is
always sufficient (`match_nrau_fuel_stable`), making this the total
function computed by the source's unbounded recursion. -/
def match_nrau (contest : Contest) (shadow : String → String → Nat)
    (getCountry : String → Option String) (counties : String → Option (List String))
    (my_qso : QSO) (other_callsign : String) (run : Nat) : Except String Nat :=
  match_nrau_fuel (logLenOf contest other_callsign + 1) contest shadow getCountry
    counties my_qso other_callsign run

/-- The shadow-station index built by the first pass of `loop_all`: for a
counterpart `dx` and mode `mo`, the number of contacts anywhere in the
contest claiming `dx` on `mo` whose counterpart is absent from the contest
(the `shadow_stations[dx][mo + "_count"]` counter). -/
def build_shadow_count (contest : Contest) (dx mo : String) : Nat :=
  (((contest.map Prod.snd).flatten).filter
    (fun q => !containsCall contest q.dx_call && q.dx_call == dx && q.mo == mo)).length

/-- The per-participant running tally of `loop_all`'s `results[call]` entry
(the scoring fields; the static metadata fields carry no logic). -/
structure PResult where
  qso_count_80m : Nat
  qso_count_40m : Nat
  points_80m : Nat
  points_40m : Nat
  mults_80m : List String
  mults_40m : List String
deriving Repr, DecidableEq

/-- The empty tally `loop_all` starts each participant with. -/
def initResult : PResult :=
  { qso_count_80m := 0, qso_count_40m := 0, points_80m := 0, points_40m := 0,
    mults_80m := [], mults_40m := [] }

/-- The multiplier-eligibility computation of `loop_all`'s inner loop:
`mult_ok` starts `True` and is only ever revised for `points == 1`, where
`cic.get_country_name` and the `counties` table are consulted (either able
to raise, aborting the run: the `.error` cases) and the counterpart's own
transmitted area, when its contact is found, must agree. -/
def mult_ok_check (contest : Contest) (getCountry : String → Option String)
    (counties : String → Option (List String)) (q : QSO) (points : Nat)
    (county : String) : Except String Bool :=
  if points = 1 then
    match getCountry q.dx_call with
    | none => .error "KeyError"
    | some country =>
      match counties country with
      | none => .error "KeyError"
      | some areas =>
        let ok1 : Bool := decide (county ∈ areas)
        let ok2 : Bool :=
          match find_qso contest q.dx_call q.de_call (qso_band q) 1 with
          | some other_qso => other_qso.de_exch.getD 2 "" == county
          | none => true
        .ok (ok1 && ok2)
  else .ok true

/-- The per-band tally update of `loop_all`: two sequential `if`s on the
leading frequency digit; the area code is appended to the band's multiplier
list only when `mult_ok` holds and it is not already present. -/
def update_result (r : PResult) (q : QSO) (points : Nat) (county : String)
    (mult_ok : Bool) : PResult :=
  let r1 :=
    if qso_band q = '7' then
      { r with qso_count_40m := r.qso_count_40m + 1,
               points_40m := r.points_40m + points,
               mults_40m :=
                 if mult_ok = true ∧ county ∉ r.mults_40m then
                   r.mults_40m ++ [county]
                 else r.mults_40m }
    else r
  if qso_band q = '3' then
    { r1 with qso_count_80m := r1.qso_count_80m + 1,
              points_80m := r1.points_80m + points,
              mults_80m :=
                if mult_ok = true ∧ county ∉ r1.mults_80m then
                  r1.mults_80m ++ [county]
                else r1.mults_80m }
  else r1

/-- The body of `loop_all`'s inner loop for one contact: grade it with
`match_nrau`, and on a positive grade update the tally, the multiplier
eligibility being checked only for grade 1. -/
def score_qso (contest : Contest) (shadow : String → String → Nat)
    (getCountry : String → Option String) (counties : String → Option (List String))
    (r : PResult) (q : QSO) : Except String PResult :=
  match match_nrau contest shadow getCountry counties q q.dx_call 1 with
  | .error e => .error e
  | .ok points =>
    if 0 < points then
      let county := q.dx_exch.getD 2 ""
      match mult_ok_check contest getCountry counties q points county with
      | .error e => .error e
      | .ok mult_ok => .ok (update_result r q points county mult_ok)
    else .ok r

/-- `loop_all`'s inner loop over one participant's contacts in submission
order; an exception raised for any contact propagates (aborting the run). -/
def loop_participant (contest : Contest) (shadow : String → String → Nat)
    (getCountry : String → Option String) (counties : String → Option (List String))
    (r : PResult) : List QSO → Except String PResult
  | [] => .ok r
  | q :: rest =>
    match score_qso contest shadow getCountry counties r q with
    | .error e => .error e
    | .ok r' => loop_participant contest shadow getCountry counties r' rest

/-- `loop_all` of `check.py`: build the shadow-station index over the whole
contest, then score every participant's log. -/
def loop_all (contest : Contest) (getCountry : String → Option String)
    (counties : String → Option (List String)) :
    Except String (List (String × PResult)) :=
  contest.mapM (fun p =>
    (loop_participant contest (build_shadow_count contest) getCountry counties
      initResult p.2).map (fun r => (p.1, r)))

/-! ## Concrete fixtures

Small contests used to evaluate the embedded code at explicit inputs. -/

/-- The trivial (never consulted) shadow index. -/
def shadow0 : String → String → Nat := fun _ _ => 0

/-- A shadow index recording 10 claimant contacts for every station. -/
def shadow10 : String → String → Nat := fun _ _ => 10

/-- A shadow index recording 9 claimant contacts for every station. -/
def shadow9 : String → String → Nat := fun _ _ => 9

/-- A country resolver that always fails (raises). -/
def gcNone : String → Option String := fun _ => none

/-- A country resolver mapping every call to country "C". -/
def gcSomeC : String → Option String := fun _ => some "C"

/-- An empty area-reference table: every country key is absent. -/
def ctNone : String → Option (List String) := fun _ => none

/-- An area-reference table whose only valid area anywhere is "Y". -/
def ctYonly : String → Option (List String) := fun _ => some ["Y"]

/-- A CW contact of A with B, legal CW frequency, timestamped inside the CW
window, with a clean exchange. -/
def c1Q : QSO :=
  ⟨"CW", "3550", CW_CONTEST_START + 600, "A", "B", ["599", "1", "X"], ["599", "1", "Y"]⟩

/-- B's first logged contact with A: exchange agrees with `c1Q` but its
timestamp is 10 minutes later (outside the 5-minute tolerance). -/
def c1R1 : QSO :=
  ⟨"CW", "3551", CW_CONTEST_START + 1200, "B", "A", ["599", "1", "Y"], ["599", "1", "X"]⟩

/-- B's duplicate second contact with A, 30 minutes after `c1Q` (also
outside tolerance), with a different serial. -/
def c1R2 : QSO :=
  ⟨"CW", "3552", CW_CONTEST_START + 2400, "B", "A", ["599", "9", "Y"], ["599", "9", "X"]⟩

/-- Contest with A's single claim and B's two duplicate counterparts. -/
def c1contest : Contest := [("A", [c1Q]), ("B", [c1R1, c1R2])]

/-- A CW contact timestamped inside the PH window (06:40) and outside the
CW window. -/
def c2Q : QSO :=
  ⟨"CW", "3550", PH_CONTEST_START + 600, "A", "B", ["599", "1", "X"], ["599", "1", "Y"]⟩

/-- B's matching counterpart to `c2Q`, 100 seconds later. -/
def c2R : QSO :=
  ⟨"CW", "3551", PH_CONTEST_START + 700, "B", "A", ["599", "1", "Y"], ["599", "1", "X"]⟩

/-- Contest for the mode-blind window scenario. -/
def c2contest : Contest := [("A", [c2Q]), ("B", [c2R])]

/-- A CW contact at 3570 kHz, outside every CW range, claiming shadow
station B with received area "Y". -/
def c3Q : QSO :=
  ⟨"CW", "3570", CW_CONTEST_START + 600, "A", "B", ["599", "1", "X"], ["599", "1", "Y"]⟩

/-- Contest containing only A, so B is a shadow station. -/
def c3contest : Contest := [("A", [c3Q])]

/-- A CW contact whose counterpart is in the contest but logged no matching
QSO on that band. -/
def c3wQ : QSO :=
  ⟨"CW", "3570", CW_CONTEST_START + 600, "A", "B", ["599", "1", "X"], ["599", "1", "Y"]⟩

/-- B's matching counterpart to `c3wQ*`, within tolerance. -/
def c3wR : QSO :=
  ⟨"CW", "3570", CW_CONTEST_START + 650, "B", "A", ["599", "1", "Y"], ["599", "1", "X"]⟩

/-- Contest for the out-of-band located-match scenario. -/
def c3wcontest : Contest := [("A", [c3wQ]), ("B", [c3wR])]

/-- A's claim with a received-report copying error ("579" for "599"),
otherwise matching `c8R`. -/
def c8Q : QSO :=
  ⟨"CW", "3550", CW_CONTEST_START + 600, "A", "B", ["599", "1", "X"], ["579", "1", "Y"]⟩

/-- B's counterpart contact to `c8Q`, within tolerance, clean exchange. -/
def c8R : QSO :=
  ⟨"CW", "3550", CW_CONTEST_START + 650, "B", "A", ["599", "1", "Y"], ["599", "1", "X"]⟩

/-- Contest in which A's contact grades 1, forcing the multiplier
eligibility lookups to run. -/
def c8contest : Contest := [("A", [c8Q]), ("B", [c8R])]

/-- A CW contact timestamped after both contest windows have closed. -/
def c2wQ : QSO :=
  ⟨"CW", "3550", CW_CONTEST_START + 9000, "A", "B", ["599", "1", "X"], ["599", "1", "Y"]⟩

/-- B's matching counterpart to `c2wQ`. -/
def c2wR : QSO :=
  ⟨"CW", "3551", CW_CONTEST_START + 9050, "B", "A", ["599", "1", "Y"], ["599", "1", "X"]⟩

/-- Contest for the outside-both-windows scenario. -/
def c2wcontest : Contest := [("A", [c2wQ]), ("B", [c2wR])]

/-- An exchange pair for the grader: serials "014" and "14" (integer-equal). -/
def c4My : QSO :=
  ⟨"CW", "3550", CW_CONTEST_START + 600, "A", "B", ["599", "1", "X"], ["599", "014", "Y"]⟩

/-- Counterpart for `c4My` transmitting serial "14". -/
def c4Other : QSO :=
  ⟨"CW", "3550", CW_CONTEST_START + 600, "B", "A", ["599", "14", "Y"], ["599", "1", "X"]⟩

/-- A contact with an incomplete (2-field) sent exchange. -/
def c4Bad : QSO :=
  ⟨"CW", "3550", CW_CONTEST_START + 600, "A", "B", ["599", "1"], ["599", "014", "Y"]⟩

/-! ## Lemmas about the QSO locator -/

theorem find_qso_aux_some_le (dx : String) (band : Char) :
    ∀ (log : List QSO) (occurence found : Nat) (q : QSO),
      find_qso_aux log dx band occurence found = some q →
      occurence ≤ found + countMatching log dx band := by
  intro log
  induction log with
  | nil => intro occ found q h; simp [find_qso_aux] at h
  | cons a rest ih =>
    intro occ found q h
    simp only [find_qso_aux] at h
    by_cases hm : qso_matches dx band a
    · rw [if_pos hm] at h
      have hcnt : countMatching (a :: rest) dx band = countMatching rest dx band + 1 := by
        simp [countMatching, List.filter_cons, hm]
      by_cases he : found + 1 = occ
      · omega
      · rw [if_neg he] at h
        have := ih occ (found + 1) q h
        omega
    · rw [if_neg hm] at h
      have hcnt : countMatching (a :: rest) dx band = countMatching rest dx band := by
        simp [countMatching, List.filter_cons, hm]
      have := ih occ found q h
      omega

theorem countMatching_le_length (log : List QSO) (dx : String) (band : Char) :
    countMatching log dx band ≤ log.length :=
  List.length_filter_le _ _

theorem find_qso_some_le (contest : Contest) (call dx : String) (band : Char)
    (occurence : Nat) (q : QSO)
    (h : find_qso contest call dx band occurence = some q) :
    occurence ≤ logLenOf contest call := by
  unfold find_qso at h
  cases hl : lookupLog contest call with
  | none => rw [hl] at h; exact absurd h (by simp)
  | some log =>
    rw [hl] at h
    have h1 := find_qso_aux_some_le dx band log occurence 0 q h
    have h2 := countMatching_le_length log dx band
    have h3 : logLenOf contest call = log.length := by unfold logLenOf; rw [hl]
    omega

theorem find_qso_aux_eq_getElem (dx : String) (band : Char) :
    ∀ (log : List QSO) (occurence found : Nat), found < occurence →
      find_qso_aux log dx band occurence found =
        (log.filter (qso_matches dx band))[occurence - found - 1]? := by
  intro log
  induction log with
  | nil => intro occ found _; simp [find_qso_aux]
  | cons a rest ih =>
    intro occ found hlt
    simp only [find_qso_aux, List.filter_cons]
    by_cases hm : qso_matches dx band a
    · rw [if_pos hm, if_pos hm]
      by_cases he : found + 1 = occ
      · rw [if_pos he]
        have : occ - found - 1 = 0 := by omega
        rw [this]
        simp
      · rw [if_neg he]
        obtain ⟨k, hk⟩ : ∃ k, occ - found - 1 = k + 1 := ⟨occ - found - 2, by omega⟩
        rw [ih occ (found + 1) (by omega), hk]
        have : occ - (found + 1) - 1 = k := by omega
        rw [this]
        simp
    · rw [if_neg hm, if_neg hm]
      exact ih occ found hlt

/-! ## Unfolding the orchestrator's recursion -/

theorem match_nrau_body_congr (rec1 rec2 : Nat → Except String Nat)
    (contest : Contest) (shadow : String → String → Nat)
    (getCountry : String → Option String) (counties : String → Option (List String))
    (my_qso : QSO) (other_callsign : String) (run : Nat)
    (h : ∀ q, find_qso contest other_callsign my_qso.de_call (qso_band my_qso)
          (run + 1) = some q →
        rec1 (run + 1) = rec2 (run + 1)) :
    match_nrau_body rec1 contest shadow getCountry counties my_qso other_callsign run =
      match_nrau_body rec2 contest shadow getCountry counties my_qso other_callsign run := by
  unfold match_nrau_body
  cases strDigits? my_qso.freq with
  | none => rfl
  | some f =>
    by_cases hc : containsCall contest other_callsign = false
    · simp only [if_pos hc]
    · simp only [if_neg hc]
      cases hfq : find_qso contest other_callsign my_qso.de_call (qso_band my_qso) run with
      | none => rfl
      | some oq =>
        by_cases h1 : (my_qso.mo == "CW" && !cw_freq_ok f) = true
        · simp only [if_pos h1]
        · simp only [if_neg h1]
          by_cases h2 : (my_qso.mo == "PH" && !ph_freq_ok f) = true
          · simp only [if_pos h2]
          · simp only [if_neg h2]
            by_cases h3 : (!match_time_window my_qso.date) = true
            · simp only [if_pos h3]
            · simp only [if_neg h3]
              by_cases h4 : (!match_time my_qso.date oq.date) = true
              · simp only [if_pos h4]
                cases hfq2 : find_qso contest other_callsign my_qso.de_call
                    (qso_band my_qso) (run + 1) with
                | none => rfl
                | some q => rw [h q hfq2]
              · simp only [if_neg h4]

theorem match_nrau_fuel_stable (contest : Contest) (shadow : String → String → Nat)
    (getCountry : String → Option String) (counties : String → Option (List String))
    (my_qso : QSO) (other_callsign : String) :
    ∀ f1 f2 run, 1 ≤ f1 → 1 ≤ f2 →
      logLenOf contest other_callsign + 1 ≤ run + f1 →
      logLenOf contest other_callsign + 1 ≤ run + f2 →
      match_nrau_fuel f1 contest shadow getCountry counties my_qso other_callsign run =
        match_nrau_fuel f2 contest shadow getCountry counties my_qso other_callsign run := by
  intro f1
  induction f1 with
  | zero => intro f2 run h1; omega
  | succ f1 ih =>
    intro f2 run _ h2 hb1 hb2
    cases f2 with
    | zero => omega
    | succ f2 =>
      simp only [match_nrau_fuel]
      apply match_nrau_body_congr
      intro q hq
      have hle := find_qso_some_le contest other_callsign my_qso.de_call
        (qso_band my_qso) (run + 1) q hq
      exact ih f2 (run + 1) (by omega) (by omega) (by omega) (by omega)

/-- The orchestrator satisfies the source's recursive defining equation:
unfolding `match_nrau` once yields `match_nrau_body` with `match_nrau`
itself (at the same contest and counterpart) as the recursive call. -/
theorem match_nrau_unfold (contest : Contest) (shadow : String → String → Nat)
    (getCountry : String → Option String) (counties : String → Option (List String))
    (my_qso : QSO) (other_callsign : String) (run : Nat) :
    match_nrau contest shadow getCountry counties my_qso other_callsign run =
      match_nrau_body
        (fun r => match_nrau contest shadow getCountry counties my_qso other_callsign r)
        contest shadow getCountry counties my_qso other_callsign run := by
  unfold match_nrau
  simp only [match_nrau_fuel]
  apply match_nrau_body_congr
  intro q hq
  have hle := find_qso_some_le contest other_callsign my_qso.de_call
    (qso_band my_qso) (run + 1) q hq
  exact match_nrau_fuel_stable contest shadow getCountry counties my_qso other_callsign
    (logLenOf contest other_callsign) (logLenOf contest other_callsign + 1) (run + 1)
    (by omega) (by omega) (by omega) (by omega)

/-- The shadow-station branch of `match_nrau`: when the counterpart is
absent from the contest, the result is decided by the per-mode shadow count
and the county reference lookups alone. -/
theorem match_nrau_shadow_branch (contest : Contest) (shadow : String → String → Nat)
    (getCountry : String → Option String) (counties : String → Option (List String))
    (my_qso : QSO) (other_callsign : String) (run : Nat) (f : Nat)
    (hparse : strDigits? my_qso.freq = some f)
    (hc : containsCall contest other_callsign = false) :
    match_nrau contest shadow getCountry counties my_qso other_callsign run =
      if 10 ≤ shadow other_callsign my_qso.mo then
        match getCountry my_qso.dx_call with
        | none => .error "KeyError"
        | some country =>
          match counties country with
          | none => .error "KeyError"
          | some areas =>
            if my_qso.dx_exch.getD 2 "" ∉ areas then .ok 0
            else .ok 1
      else .ok 0 := by
  rw [match_nrau_unfold]
  unfold match_nrau_body
  rw [hparse]
  simp only [hc, if_pos]

/-- The located-counterpart path of `match_nrau`: when the counterpart is
in the contest and a contact at occurrence `run` is located, the result is
the frequency/window/drift chain of the source. -/
theorem match_nrau_main_branch (contest : Contest) (shadow : String → String → Nat)
    (getCountry : String → Option String) (counties : String → Option (List String))
    (my_qso : QSO) (other_callsign : String) (run : Nat) (f : Nat) (other_qso : QSO)
    (hparse : strDigits? my_qso.freq = some f)
    (hc : containsCall contest other_callsign = true)
    (hfind : find_qso contest other_callsign my_qso.de_call (qso_band my_qso) run =
      some other_qso) :
    match_nrau contest shadow getCountry counties my_qso other_callsign run =
      (if my_qso.mo == "CW" && !cw_freq_ok f then .ok 0
       else if my_qso.mo == "PH" && !ph_freq_ok f then .ok 0
       else if !match_time_window my_qso.date then .ok 0
       else if !match_time my_qso.date other_qso.date then
         match find_qso contest other_callsign my_qso.de_call (qso_band my_qso)
             (run + 1) with
         | some _ =>
           match match_nrau contest shadow getCountry counties my_qso other_callsign
               (run + 1) with
           | .error e => .error e
           | .ok next_score =>
             if 0 < next_score then .ok next_score
             else match_exch my_qso other_qso
         | none => .ok 0
       else match_exch my_qso other_qso) := by
  rw [match_nrau_unfold]
  unfold match_nrau_body
  rw [hparse]
  simp [hc, hfind]

/-- When the counterpart is in the contest but no contact at occurrence
`run` is located, `match_nrau` grades 0 (`QSO not found`). -/
theorem match_nrau_notfound (contest : Contest) (shadow : String → String → Nat)
    (getCountry : String → Option String) (counties : String → Option (List String))
    (my_qso : QSO) (other_callsign : String) (run : Nat) (f : Nat)
    (hparse : strDigits? my_qso.freq = some f)
    (hc : containsCall contest other_callsign = true)
    (hfind : find_qso contest other_callsign my_qso.de_call (qso_band my_qso) run =
      none) :
    match_nrau contest shadow getCountry counties my_qso other_callsign run = .ok 0 := by
  rw [match_nrau_unfold]
  unfold match_nrau_body
  rw [hparse]
  simp [hc, hfind]

/-! ## Claim theorems -/

/-- C6: `find_qso` applied with occurrence `k` to a log containing exactly
`k` contacts matching the counterpart call and band returns the `k`-th such
contact in submission order (the `(k-1)`-indexed element of the matching
sublist, which exists); occurrence `k + 1` returns `none`; and an owner
callsign absent from the contest also returns `none`. -/
theorem C6_qso_locator (contest : Contest) (call dx : String) (band : Char)
    (log : List QSO) (k occurence : Nat) :
    (lookupLog contest call = some log → countMatching log dx band = k → 1 ≤ k →
      find_qso contest call dx band k = (log.filter (qso_matches dx band))[k - 1]? ∧
      (find_qso contest call dx band k).isSome = true ∧
      find_qso contest call dx band (k + 1) = none) ∧
    (lookupLog contest call = none → find_qso contest call dx band occurence = none) := by
  constructor
  · intro hl hk hk1
    have hlen : (log.filter (qso_matches dx band)).length = k := hk
    have heq : find_qso contest call dx band k =
        (log.filter (qso_matches dx band))[k - 1]? := by
      unfold find_qso
      rw [hl]
      have h := find_qso_aux_eq_getElem dx band log k 0 (by omega)
      simpa using h
    refine ⟨heq, ?_, ?_⟩
    · rw [heq, List.getElem?_eq_getElem (by omega)]
      rfl
    · unfold find_qso
      simp only [hl]
      rw [find_qso_aux_eq_getElem dx band log (k + 1) 0 (by omega)]
      apply List.getElem?_eq_none
      omega
  · intro hl
    unfold find_qso
    rw [hl]

/-- Witness for C6 at a concrete contest: B's log holds exactly two contacts
matching counterpart A on band '3'; occurrence 2 returns the second,
occurrence 3 returns `none`, and an absent owner returns `none`. -/
theorem C6_witness :
    find_qso c1contest "B" "A" '3' 2 = some c1R2 ∧
    find_qso c1contest "B" "A" '3' 3 = none ∧
    find_qso c1contest "Z" "A" '3' 1 = none := by
  have h := (C6_qso_locator c1contest "B" "A" '3' [c1R1, c1R2] 2 1).1
    (by rfl) (by decide) (by decide)
  have habs := (C6_qso_locator c1contest "Z" "A" '3' [] 1 1).2 (by rfl)
  exact ⟨h.1.trans (by rfl), h.2.2, habs⟩

/-- C5: when the counterpart never submitted a log, a shadow count of
exactly 9 on the claimant's mode grades 0 (log not received), and a count of
10 or more grades 1 provided the claimed area code belongs to the valid-area
set of the counterpart's country. -/
theorem C5_shadow_station_threshold (contest : Contest)
    (shadow : String → String → Nat) (getCountry : String → Option String)
    (counties : String → Option (List String)) (my_qso : QSO)
    (other_callsign : String) (f : Nat) (country : String) (areas : List String)
    (hparse : strDigits? my_qso.freq = some f)
    (habsent : containsCall contest other_callsign = false) :
    (shadow other_callsign my_qso.mo = 9 →
      match_nrau contest shadow getCountry counties my_qso other_callsign 1 = .ok 0) ∧
    (10 ≤ shadow other_callsign my_qso.mo →
      getCountry my_qso.dx_call = some country →
      counties country = some areas →
      my_qso.dx_exch.getD 2 "" ∈ areas →
      match_nrau contest shadow getCountry counties my_qso other_callsign 1 = .ok 1) := by
  constructor
  · intro h9
    rw [match_nrau_shadow_branch contest shadow getCountry counties my_qso
      other_callsign 1 f hparse habsent, h9]
    simp
  · intro h10 hgc hct hmem
    rw [match_nrau_shadow_branch contest shadow getCountry counties my_qso
      other_callsign 1 f hparse habsent, if_pos h10]
    simp only [hgc, hct]
    rw [if_neg (not_not_intro hmem)]

/-- Witness for C5: with B absent from the contest, a shadow count of 9
yields grade 0 and a count of 10 with valid claimed area "Y" yields grade 1. -/
theorem C5_witness :
    match_nrau c3contest shadow9 gcSomeC ctYonly c3Q "B" 1 = .ok 0 ∧
    match_nrau c3contest shadow10 gcSomeC ctYonly c3Q "B" 1 = .ok 1 := by
  have h9 := C5_shadow_station_threshold c3contest shadow9 gcSomeC ctYonly c3Q "B"
    3570 "C" ["Y"] (by decide) (by decide)
  have h10 := C5_shadow_station_threshold c3contest shadow10 gcSomeC ctYonly c3Q "B"
    3570 "C" ["Y"] (by decide) (by decide)
  exact ⟨h9.1 rfl, h10.2 (by decide) rfl rfl (by decide)⟩

/-- C9: the duplicate-resolution recursion of `match_nrau` is bounded by the
counterpart log's length: every located occurrence index is at most that
length, and any recursion fuel of at least `logLenOf + 1 - run` computes the
same value as `match_nrau` itself, so the orchestrator is the total function
of its inputs that the source's recursion (strictly increasing `run`, firing
only when occurrence `run + 1` is located) computes. -/
theorem C9_duplicate_recursion_terminates (contest : Contest)
    (shadow : String → String → Nat) (getCountry : String → Option String)
    (counties : String → Option (List String)) (my_qso : QSO)
    (other_callsign : String) (run fuel : Nat) :
    (∀ occurence q, find_qso contest other_callsign my_qso.de_call
        (qso_band my_qso) occurence = some q →
      occurence ≤ logLenOf contest other_callsign) ∧
    (1 ≤ fuel → logLenOf contest other_callsign + 1 ≤ run + fuel →
      match_nrau_fuel fuel contest shadow getCountry counties my_qso other_callsign run =
        match_nrau contest shadow getCountry counties my_qso other_callsign run) := by
  constructor
  · intro occurence q h
    exact find_qso_some_le contest other_callsign my_qso.de_call (qso_band my_qso)
      occurence q h
  · intro h1 h2
    exact match_nrau_fuel_stable contest shadow getCountry counties my_qso
      other_callsign fuel (logLenOf contest other_callsign + 1) run h1 (by omega)
      h2 (by omega)

/-- Witness for C9: in the two-dupe contest, located occurrence 2 is within
the bound, and fuel 1 at `run = 3` already computes `match_nrau`. -/
theorem C9_witness :
    2 ≤ logLenOf c1contest "B" ∧
    match_nrau_fuel 1 c1contest shadow0 gcNone ctNone c1Q "B" 3 =
      match_nrau c1contest shadow0 gcNone ctNone c1Q "B" 3 := by
  have h := C9_duplicate_recursion_terminates c1contest shadow0 gcNone ctNone c1Q "B" 3 1
  exact ⟨h.1 2 c1R2 (by rfl), h.2 (by decide) (by decide)⟩

/-- C2 counterexample: a CW contact timestamped 06:40 — inside the PH window
and outside the CW window — is graded 2 by the orchestrator, not 0: the
window check of the code is the union of the two windows, not mode-specific. -/
theorem C2_counterexample :
    c2Q.mo = "CW" ∧
    ¬ (CW_CONTEST_START ≤ c2Q.date ∧ c2Q.date < CW_CONTEST_START + 7200) ∧
    match_nrau c2contest shadow0 gcNone ctNone c2Q "B" 1 = .ok 2 :=
  ⟨rfl, by decide, by rfl⟩

/-- C2 (amended): a contact timestamped outside BOTH fixed 2-hour windows
is graded 0 once a counterpart contact has been located and the frequency
checks pass; the code's window test is the union of the PH and CW windows
and does not depend on the contact's mode. -/
theorem C2_amended_window_union (contest : Contest) (shadow : String → String → Nat)
    (getCountry : String → Option String) (counties : String → Option (List String))
    (my_qso : QSO) (other_callsign : String) (run f : Nat) (other_qso : QSO)
    (hparse : strDigits? my_qso.freq = some f)
    (hc : containsCall contest other_callsign = true)
    (hfind : find_qso contest other_callsign my_qso.de_call (qso_band my_qso) run =
      some other_qso)
    (hcw : (my_qso.mo == "CW" && !cw_freq_ok f) = false)
    (hph : (my_qso.mo == "PH" && !ph_freq_ok f) = false)
    (hwin : match_time_window my_qso.date = false) :
    match_nrau contest shadow getCountry counties my_qso other_callsign run = .ok 0 := by
  rw [match_nrau_main_branch contest shadow getCountry counties my_qso other_callsign
    run f other_qso hparse hc hfind]
  simp [hcw, hph, hwin]

/-- Witness for the amended C2: a CW contact after both windows closed is
graded 0. -/
theorem C2_amended_witness :
    match_time_window c2wQ.date = false ∧
    match_nrau c2wcontest shadow0 gcNone ctNone c2wQ "B" 1 = .ok 0 :=
  ⟨by decide, C2_amended_window_union c2wcontest shadow0 gcNone ctNone c2wQ "B" 1
    3550 c2wR (by decide) (by decide) (by rfl) (by decide) (by decide) (by decide)⟩

/-- C3 counterexample: a CW contact at 3570 kHz (outside every CW range)
whose counterpart submitted no log is graded 1 by the orchestrator when the
shadow threshold is met and the claimed area is valid — the frequency checks
are never reached on the shadow-station path. -/
theorem C3_counterexample :
    c3Q.mo = "CW" ∧ strDigits? c3Q.freq = some 3570 ∧ cw_freq_ok 3570 = false ∧
    containsCall c3contest "B" = false ∧ shadow10 "B" c3Q.mo = 10 ∧
    match_nrau c3contest shadow10 gcSomeC ctYonly c3Q "B" 1 = .ok 1 :=
  ⟨rfl, by decide, by decide, by decide, rfl, by rfl⟩

/-- C3 (amended): the mode-specific frequency legality checks yield grade 0,
but only on the path where the counterpart submitted a log and a matching
contact was located; the shadow-station path never checks frequency. -/
theorem C3_amended_freq_legality (contest : Contest) (shadow : String → String → Nat)
    (getCountry : String → Option String) (counties : String → Option (List String))
    (my_qso : QSO) (other_callsign : String) (run f : Nat) (other_qso : QSO)
    (hparse : strDigits? my_qso.freq = some f)
    (hc : containsCall contest other_callsign = true)
    (hfind : find_qso contest other_callsign my_qso.de_call (qso_band my_qso) run =
      some other_qso) :
    ((my_qso.mo == "CW" && !cw_freq_ok f) = true →
      match_nrau contest shadow getCountry counties my_qso other_callsign run = .ok 0) ∧
    ((my_qso.mo == "CW" && !cw_freq_ok f) = false →
      (my_qso.mo == "PH" && !ph_freq_ok f) = true →
      match_nrau contest shadow getCountry counties my_qso other_callsign run = .ok 0) := by
  constructor
  · intro h1
    rw [match_nrau_main_branch contest shadow getCountry counties my_qso other_callsign
      run f other_qso hparse hc hfind]
    simp [h1]
  · intro h1 h2
    rw [match_nrau_main_branch contest shadow getCountry counties my_qso other_callsign
      run f other_qso hparse hc hfind]
    simp [h1, h2]

/-- Witness for the amended C3: the same 3570 kHz CW contact is graded 0
when its counterpart's log does contain a matching contact. -/
theorem C3_amended_witness :
    (c3wQ.mo == "CW" && !cw_freq_ok 3570) = true ∧
    match_nrau c3wcontest shadow0 gcNone ctNone c3wQ "B" 1 = .ok 0 :=
  ⟨by decide, (C3_amended_freq_legality c3wcontest shadow0 gcNone ctNone c3wQ "B" 1
    3570 c3wR (by decide) (by decide) (by rfl)).1 (by decide)⟩

/-- C1 counterexample: in a contest where B logged two duplicate contacts
with A, both outside the 5-minute tolerance of A's claim and with no third
occurrence, the orchestrator still returns the positive grade 2: with the
recursion at `run = 2` yielding 0, `check.py` falls through and applies the
exchange grader to the out-of-tolerance occurrence 1. -/
theorem C1_counterexample :
    match_time c1Q.date c1R1.date = false ∧
    match_time c1Q.date c1R2.date = false ∧
    find_qso c1contest "B" "A" '3' 1 = some c1R1 ∧
    find_qso c1contest "B" "A" '3' 2 = some c1R2 ∧
    find_qso c1contest "B" "A" '3' 3 = none ∧
    match_nrau c1contest shadow0 gcNone ctNone c1Q "B" 1 = .ok 2 :=
  ⟨by decide, by decide, by rfl, by rfl, by rfl, by rfl⟩

/-- C1 (amended): on an out-of-tolerance located match, the grade-0
time-differs outcome occurs exactly when no occurrence `run + 1` exists;
when a further occurrence exists and the recursion at `run + 1` yields 0,
`check.py` applies the exchange grader to the original out-of-tolerance
match and returns its grade (which may be positive); a positive recursive
grade is returned as is.  (`gui.py`'s `validate_qso_gui` instead returns
the recursive result unconditionally.) -/
theorem C1_amended_time_drift (contest : Contest) (shadow : String → String → Nat)
    (getCountry : String → Option String) (counties : String → Option (List String))
    (my_qso : QSO) (other_callsign : String) (run f : Nat) (other_qso : QSO)
    (hparse : strDigits? my_qso.freq = some f)
    (hc : containsCall contest other_callsign = true)
    (hfind : find_qso contest other_callsign my_qso.de_call (qso_band my_qso) run =
      some other_qso)
    (hcw : (my_qso.mo == "CW" && !cw_freq_ok f) = false)
    (hph : (my_qso.mo == "PH" && !ph_freq_ok f) = false)
    (hwin : match_time_window my_qso.date = true)
    (htol : match_time my_qso.date other_qso.date = false) :
    (find_qso contest other_callsign my_qso.de_call (qso_band my_qso) (run + 1) =
        none →
      match_nrau contest shadow getCountry counties my_qso other_callsign run = .ok 0) ∧
    (∀ q, find_qso contest other_callsign my_qso.de_call (qso_band my_qso) (run + 1) =
        some q →
      match_nrau contest shadow getCountry counties my_qso other_callsign (run + 1) =
        .ok 0 →
      match_nrau contest shadow getCountry counties my_qso other_callsign run =
        match_exch my_qso other_qso) ∧
    (∀ q s, find_qso contest other_callsign my_qso.de_call (qso_band my_qso) (run + 1) =
        some q →
      match_nrau contest shadow getCountry counties my_qso other_callsign (run + 1) =
        .ok s →
      0 < s →
      match_nrau contest shadow getCountry counties my_qso other_callsign run =
        .ok s) := by
  have hmain := match_nrau_main_branch contest shadow getCountry counties my_qso
    other_callsign run f other_qso hparse hc hfind
  refine ⟨?_, ?_, ?_⟩
  · intro hnone
    rw [hmain]
    simp [hcw, hph, hwin, htol, hnone]
  · intro q hq hrec
    rw [hmain]
    simp [hcw, hph, hwin, htol, hq, hrec]
  · intro q s hq hrec hs
    rw [hmain]
    simp [hcw, hph, hwin, htol, hq, hrec, hs]

/-- Witness for the amended C1: at `run = 2` (no third occurrence) the
result is the time-differs 0; at `run = 1` the result equals the exchange
grade of the out-of-tolerance first occurrence. -/
theorem C1_amended_witness :
    match_nrau c1contest shadow0 gcNone ctNone c1Q "B" 2 = .ok 0 ∧
    match_nrau c1contest shadow0 gcNone ctNone c1Q "B" 1 = match_exch c1Q c1R1 := by
  have h2 := C1_amended_time_drift c1contest shadow0 gcNone ctNone c1Q "B" 2 3550 c1R2
    (by decide) (by decide) (by rfl) (by decide) (by decide) (by decide) (by decide)
  have h1 := C1_amended_time_drift c1contest shadow0 gcNone ctNone c1Q "B" 1 3550 c1R1
    (by decide) (by decide) (by rfl) (by decide) (by decide) (by decide) (by decide)
  exact ⟨h2.1 (by rfl), h1.2.1 c1R2 (by rfl) (h2.1 (by rfl))⟩

/-- C4: the exchange grader checks, in order: own sent exchange has 3
fields (else 0), own received exchange has 3 fields (else 0), received
report equals the counterpart's transmitted report as strings (else 1),
received serial equals the counterpart's transmitted serial as parsed
integers — so "014" equals "14" — (else 1), received area equals the
counterpart's transmitted area as strings (else 1); it short-circuits at
the first failure, and grades 2 exactly when every check passes. -/
theorem C4_exchange_grader_order (my_qso other_qso : QSO) :
    (my_qso.de_exch.length ≠ 3 → match_exch my_qso other_qso = .ok 0) ∧
    (my_qso.de_exch.length = 3 → my_qso.dx_exch.length ≠ 3 →
      match_exch my_qso other_qso = .ok 0) ∧
    (my_qso.de_exch.length = 3 → my_qso.dx_exch.length = 3 →
      my_qso.dx_exch.getD 0 "" ≠ other_qso.de_exch.getD 0 "" →
      match_exch my_qso other_qso = .ok 1) ∧
    (∀ a b, my_qso.de_exch.length = 3 → my_qso.dx_exch.length = 3 →
      my_qso.dx_exch.getD 0 "" = other_qso.de_exch.getD 0 "" →
      strDigits? (my_qso.dx_exch.getD 1 "") = some a →
      strDigits? (other_qso.de_exch.getD 1 "") = some b → a ≠ b →
      match_exch my_qso other_qso = .ok 1) ∧
    (∀ a, my_qso.de_exch.length = 3 → my_qso.dx_exch.length = 3 →
      my_qso.dx_exch.getD 0 "" = other_qso.de_exch.getD 0 "" →
      strDigits? (my_qso.dx_exch.getD 1 "") = some a →
      strDigits? (other_qso.de_exch.getD 1 "") = some a →
      my_qso.dx_exch.getD 2 "" ≠ other_qso.de_exch.getD 2 "" →
      match_exch my_qso other_qso = .ok 1) ∧
    (match_exch my_qso other_qso = .ok 2 ↔
      my_qso.de_exch.length = 3 ∧ my_qso.dx_exch.length = 3 ∧
      my_qso.dx_exch.getD 0 "" = other_qso.de_exch.getD 0 "" ∧
      (∃ n, strDigits? (my_qso.dx_exch.getD 1 "") = some n ∧
        strDigits? (other_qso.de_exch.getD 1 "") = some n) ∧
      my_qso.dx_exch.getD 2 "" = other_qso.de_exch.getD 2 "") ∧
    (strDigits? "014" = some 14 ∧ strDigits? "14" = some 14) := by
  refine ⟨?_, ?_, ?_, ?_, ?_, ?_, by decide, by decide⟩
  · intro h1
    unfold match_exch
    rw [if_pos h1]
  · intro h1 h2
    unfold match_exch
    rw [if_neg (not_not_intro h1), if_pos h2]
  · intro h1 h2 h3
    unfold match_exch
    rw [if_neg (not_not_intro h1), if_neg (not_not_intro h2), if_pos h3]
  · intro a b h1 h2 h3 hpa hpb hab
    unfold match_exch
    rw [if_neg (not_not_intro h1), if_neg (not_not_intro h2),
      if_neg (not_not_intro h3)]
    simp only [hpa, hpb]
    rw [if_pos hab]
  · intro a h1 h2 h3 hpa hpb h5
    unfold match_exch
    rw [if_neg (not_not_intro h1), if_neg (not_not_intro h2),
      if_neg (not_not_intro h3)]
    simp only [hpa, hpb]
    rw [if_neg (by simp), if_pos h5]
  · constructor
    · intro h
      unfold match_exch at h
      by_cases h1 : my_qso.de_exch.length ≠ 3
      · rw [if_pos h1] at h
        exact absurd h (by simp)
      · rw [if_neg h1] at h
        by_cases h2 : my_qso.dx_exch.length ≠ 3
        · rw [if_pos h2] at h
          exact absurd h (by simp)
        · rw [if_neg h2] at h
          by_cases h3 : my_qso.dx_exch.getD 0 "" ≠ other_qso.de_exch.getD 0 ""
          · rw [if_pos h3] at h
            exact absurd h (by simp)
          · rw [if_neg h3] at h
            cases hpa : strDigits? (my_qso.dx_exch.getD 1 "") with
            | none =>
              simp only [hpa] at h
              exact absurd h (by simp)
            | some a =>
              cases hpb : strDigits? (other_qso.de_exch.getD 1 "") with
              | none =>
                simp only [hpa, hpb] at h
                exact absurd h (by simp)
              | some b =>
                simp only [hpa, hpb] at h
                by_cases hab : a ≠ b
                · rw [if_pos hab] at h
                  exact absurd h (by simp)
                · rw [if_neg hab] at h
                  by_cases h5 : my_qso.dx_exch.getD 2 "" ≠ other_qso.de_exch.getD 2 ""
                  · rw [if_pos h5] at h
                    exact absurd h (by simp)
                  · have hab' : a = b := not_not.mp hab
                    subst hab'
                    exact ⟨not_not.mp h1, not_not.mp h2, not_not.mp h3,
                      ⟨_, rfl, rfl⟩, not_not.mp h5⟩
    · rintro ⟨h1, h2, h3, ⟨n, hpa, hpb⟩, h5⟩
      unfold match_exch
      rw [if_neg (not_not_intro h1), if_neg (not_not_intro h2),
        if_neg (not_not_intro h3)]
      simp only [hpa, hpb]
      rw [if_neg (by simp), if_neg (not_not_intro h5)]

/-- Witness for C4: the serial pair "014"/"14" grades 2 (integer-equal),
and an incomplete 2-field sent exchange grades 0. -/
theorem C4_witness :
    match_exch c4My c4Other = .ok 2 ∧ match_exch c4Bad c4Other = .ok 0 :=
  ⟨(C4_exchange_grader_order c4My c4Other).2.2.2.2.2.1.mpr
      ⟨by decide, by decide, by decide, ⟨14, by decide, by decide⟩, by decide⟩,
    (C4_exchange_grader_order c4Bad c4Other).1 (by decide)⟩

/-- Appending an element guarded by a not-already-present test preserves
`Nodup` (the crediting step of `update_result`). -/
theorem nodup_cond_append (l : List String) (a : String) (c : Prop)
    [Decidable c] (h : l.Nodup) :
    (if c ∧ a ∉ l then l ++ [a] else l).Nodup := by
  split
  · rename_i hc
    rw [← List.concat_eq_append]
    exact List.Nodup.concat hc.2 h
  · exact h

/-- `update_result` preserves `Nodup` of both per-band multiplier lists. -/
theorem update_result_nodup (r : PResult) (q : QSO) (points : Nat)
    (county : String) (mult_ok : Bool) (h80 : r.mults_80m.Nodup)
    (h40 : r.mults_40m.Nodup) :
    (update_result r q points county mult_ok).mults_80m.Nodup ∧
      (update_result r q points county mult_ok).mults_40m.Nodup := by
  unfold update_result
  by_cases h7 : qso_band q = '7'
  · by_cases h3 : qso_band q = '3'
    · simp only [if_pos h7, if_pos h3]
      exact ⟨nodup_cond_append _ _ _ h80, nodup_cond_append _ _ _ h40⟩
    · simp only [if_pos h7, if_neg h3]
      exact ⟨h80, nodup_cond_append _ _ _ h40⟩
  · by_cases h3 : qso_band q = '3'
    · simp only [if_neg h7, if_pos h3]
      exact ⟨nodup_cond_append _ _ _ h80, h40⟩
    · simp only [if_neg h7, if_neg h3]
      exact ⟨h80, h40⟩

/-- `score_qso` preserves `Nodup` of both per-band multiplier lists. -/
theorem score_qso_nodup (contest : Contest) (shadow : String → String → Nat)
    (getCountry : String → Option String) (counties : String → Option (List String))
    (r r' : PResult) (q : QSO)
    (h : score_qso contest shadow getCountry counties r q = .ok r')
    (h80 : r.mults_80m.Nodup) (h40 : r.mults_40m.Nodup) :
    r'.mults_80m.Nodup ∧ r'.mults_40m.Nodup := by
  unfold score_qso at h
  cases hm : match_nrau contest shadow getCountry counties q q.dx_call 1 with
  | error e =>
    simp only [hm] at h
    exact Except.noConfusion h
  | ok points =>
    simp only [hm] at h
    by_cases hp : 0 < points
    · simp only [if_pos hp] at h
      cases hmo : mult_ok_check contest getCountry counties q points
          (q.dx_exch.getD 2 "") with
      | error e =>
        simp only [hmo] at h
        exact Except.noConfusion h
      | ok mok =>
        simp only [hmo] at h
        injection h with h'
        subst h'
        exact update_result_nodup r q points (q.dx_exch.getD 2 "") mok h80 h40
    · simp only [if_neg hp] at h
      injection h with h'
      subst h'
      exact ⟨h80, h40⟩

/-- `loop_participant` preserves `Nodup` of both multiplier lists across a
whole run over a participant's contacts. -/
theorem loop_participant_nodup (contest : Contest) (shadow : String → String → Nat)
    (getCountry : String → Option String) (counties : String → Option (List String)) :
    ∀ (qsos : List QSO) (r0 r : PResult),
      loop_participant contest shadow getCountry counties r0 qsos = .ok r →
      r0.mults_80m.Nodup → r0.mults_40m.Nodup →
      r.mults_80m.Nodup ∧ r.mults_40m.Nodup := by
  intro qsos
  induction qsos with
  | nil =>
    intro r0 r h h80 h40
    unfold loop_participant at h
    injection h with h'
    subst h'
    exact ⟨h80, h40⟩
  | cons q rest ih =>
    intro r0 r h h80 h40
    unfold loop_participant at h
    cases hs : score_qso contest shadow getCountry counties r0 q with
    | error e =>
      simp only [hs] at h
      exact Except.noConfusion h
    | ok r1 =>
      simp only [hs] at h
      have hn := score_qso_nodup contest shadow getCountry counties r0 r1 q hs h80 h40
      exact ih r1 r h hn.1 hn.2

/-- C7: over a whole aggregation run starting from the empty tally, each
distinct area code appears at most once in a participant's per-band
multiplier list (crediting is idempotent per band), no matter how many
positively-graded contacts claim it. -/
theorem C7_multiplier_idempotent (contest : Contest) (shadow : String → String → Nat)
    (getCountry : String → Option String) (counties : String → Option (List String))
    (qsos : List QSO) (r : PResult)
    (h : loop_participant contest shadow getCountry counties initResult qsos = .ok r) :
    r.mults_80m.Nodup ∧ r.mults_40m.Nodup :=
  loop_participant_nodup contest shadow getCountry counties qsos initResult r h
    (by simp [initResult]) (by simp [initResult])

/-- Witness for C7: two identical grade-2 contacts claiming area "Y" yield
two contacts and four points on 80 m but the single multiplier ["Y"]. -/
theorem C7_witness :
    loop_participant c2contest shadow0 gcNone ctNone initResult [c2Q, c2Q] =
      .ok { qso_count_80m := 2, qso_count_40m := 0, points_80m := 4, points_40m := 0,
            mults_80m := ["Y"], mults_40m := [] } ∧
    (["Y"] : List String).Nodup ∧ ([] : List String).Nodup := by
  have h := C7_multiplier_idempotent c2contest shadow0 gcNone ctNone [c2Q, c2Q]
    { qso_count_80m := 2, qso_count_40m := 0, points_80m := 4, points_40m := 0,
      mults_80m := ["Y"], mults_40m := [] } (by rfl)
  exact ⟨by rfl, h.1, h.2⟩

/-- C8: at a contest whose only graded-1 contact has an unresolvable
counterpart country, `check.py`'s scoring run raises `KeyError` and aborts
(`loop_all` is `.error`), instead of denying the multiplier and continuing
as the specification requires. -/
theorem C8_lookup_failure_aborts :
    match_nrau c8contest shadow0 gcNone ctNone c8Q "B" 1 = .ok 1 ∧
    loop_all c8contest gcNone ctNone = .error "KeyError" :=
  ⟨by rfl, by rfl⟩

/-- C10: a contact graded 2 is credited its received area code as a
multiplier (if new on its band) with `mult_ok = true`, for every
country-resolver and area-reference table: the multiplier-eligibility
lookups are applied only to contacts graded exactly 1, so the result is
`update_result` with the crediting flag set, independent of the tables. -/
theorem C10_grade2_credits_without_lookup (contest : Contest)
    (shadow : String → String → Nat) (getCountry : String → Option String)
    (counties : String → Option (List String)) (r : PResult) (q : QSO)
    (h : match_nrau contest shadow getCountry counties q q.dx_call 1 = .ok 2) :
    score_qso contest shadow getCountry counties r q =
      .ok (update_result r q 2 (q.dx_exch.getD 2 "") true) := by
  unfold score_qso
  simp only [h]
  rfl

/-- Witness for C10: with an empty area-reference table (every country
absent) and a failing resolver, a grade-2 contact still earns its area "Y"
as an 80 m multiplier. -/
theorem C10_witness :
    score_qso c2contest shadow0 gcNone ctNone initResult c2Q =
      .ok (update_result initResult c2Q 2 "Y" true) ∧
    (update_result initResult c2Q 2 "Y" true).mults_80m = ["Y"] ∧
    ctNone "C" = none := by
  have h := C10_grade2_credits_without_lookup c2contest shadow0 gcNone ctNone
    initResult c2Q (by rfl)
  exact ⟨h, by rfl, rfl⟩
